import Mathlib

/-!
# Verification of the uORB Manager (`src/uORB/manager/uORBManager.cxx`)

A shallow embedding of the uORB manager of this repository.  The manager
arbitrates advertise / subscribe / publish / copy / check / interval calls
between callers and per-topic device nodes.

Embedding conventions:
* C `errno` codes are `Nat` constants with their NuttX values.
* C return codes (`OK` / `-1`) are `Int`.
* Machine `unsigned` arithmetic is `Nat` with explicit `% 2^32`.
* The device nodes, the device master and the node paths live outside the
  given sources (`uORBDevices`, `uORBUtils`); their behaviour is modelled
  from the specification, each such definition carries a doc comment
  starting with `Modelled from the spec:`.  Everything else is translated
  from `uORBManager.cxx` directly.
* The broker state (`Broker`) collects the device nodes keyed by
  `(topic name, instance)` together with the set of remote topics
  (`_remote_topics`, maintained by `process_remote_topic`).
-/

namespace Errno

/-- NuttX errno `ENOENT` (no such file or directory). -/
def ENOENT : Nat := 2

/-- NuttX errno `EINTR` (interrupted system call). -/
def EINTR : Nat := 4

/-- NuttX errno `EIO` (I/O error). -/
def EIO : Nat := 5

/-- NuttX errno `ENOMEM` (out of memory). -/
def ENOMEM : Nat := 12

/-- NuttX errno `EEXIST` (file exists). -/
def EEXIST : Nat := 17

/-- NuttX errno `EINVAL` (invalid argument). -/
def EINVAL : Nat := 22

end Errno

deriving instance DecidableEq for Except

/-- `struct orb_metadata`: the static topic descriptor (name and payload
size are the fields the manager reads). -/
structure orb_metadata where
  o_name : String
  o_size : Nat
deriving DecidableEq

/-- State of one uORB device node, for one `(name, instance)` pair.
`published` is the node's advertised/published flag (queried by
`ORBIOCISPUBLISHED`), `queue_size` the installed ring capacity and
`generation` the total number of publications. -/
structure NodeState where
  published : Bool
  queue_size : Nat
  generation : Nat
deriving DecidableEq

/-- A freshly created device node: nothing published yet, default queue
size 1, no publications. -/
def freshNode : NodeState := { published := false, queue_size := 1, generation := 0 }

/-- Association-list lookup of a node by its `(name, instance)` key
(first match wins). -/
def lookupNode : List ((String × Nat) × NodeState) → (String × Nat) → Option NodeState
  | [], _ => none
  | p :: rest, k => if p.1 = k then some p.2 else lookupNode rest k

/-- Replace the node stored under a key (no-op on absent keys). -/
def setNodeList : List ((String × Nat) × NodeState) → (String × Nat) → NodeState →
    List ((String × Nat) × NodeState)
  | [], _, _ => []
  | p :: rest, k, n => if p.1 = k then (k, n) :: setNodeList rest k n else p :: setNodeList rest k n

/-- The broker state seen by the manager: the registered device nodes and
the set of topic names for which a remote advertisement has been observed
(`_remote_topics`). -/
structure Broker where
  nodes : List ((String × Nat) × NodeState)
  remote_topics : List String
deriving DecidableEq

/-- Find the device node registered for `(name, inst)`. -/
def Broker.findNode (b : Broker) (name : String) (inst : Nat) : Option NodeState :=
  lookupNode b.nodes (name, inst)

/-- Update the device node registered under `k`. -/
def Broker.setNode (b : Broker) (k : String × Nat) (n : NodeState) : Broker :=
  { b with nodes := setNodeList b.nodes k n }

/-- `uORB::Manager::process_remote_topic`: an advertisement inserts the
topic name into `_remote_topics`, a removal erases it; the return code is
always 0. -/
def process_remote_topic (b : Broker) (topic_name : String) (isAdvertisement : Bool) :
    Int × Broker :=
  if isAdvertisement then
    (0, { b with remote_topics := topic_name :: b.remote_topics })
  else
    (0, { b with remote_topics := b.remote_topics.filter (fun t => decide (t ≠ topic_name)) })

/-!
## Publisher rules (`ORB_USE_PUBLISHER_RULES`), advertise-time gate

The loaded rule (`_publisher_rule` after a successful
`readPublisherRulesFromFile`, when every field is populated).
-/

/-- The loaded publisher rule used by the advertise-time gate: when
`_has_publisher_rules` is set, `module_name` and `topics` are the non-null
strings produced by the rules parser. -/
structure LoadedRule where
  module_name : String
  topics : List String
  ignore_other_topics : Bool
deriving DecidableEq

/-- `uORB::Manager::findTopic`: walk the null-terminated `topics` array and
compare each entry with `topic_name` via `strcmp`. -/
def findTopic (rule : LoadedRule) (topic_name : String) : Bool :=
  rule.topics.any (fun t => decide (t = topic_name))

/-- The publisher-rule gate at the top of `orb_advertise_multi`
(lines 166–188): `true` means the advertise is denied and the sentinel
handle `(orb_advert_t)_Instance` is returned. -/
def publisherRuleDenies (rule : LoadedRule) (prog_name topic_name : String) : Bool :=
  if rule.module_name = prog_name then
    if rule.ignore_other_topics then !(findTopic rule topic_name) else false
  else
    findTopic rule topic_name

/-- A publisher handle (`orb_advert_t`): either the sentinel
`(orb_advert_t)_Instance` returned on a rule denial, or a real device
node. -/
inductive orb_advert where
  | sentinel
  | node (name : String) (inst : Nat)
deriving DecidableEq

/-!
## Device-side operations (outside the given sources, modelled from the spec)
-/

/-- Modelled from the spec: `DeviceNode::publish` (reached through
`uORB::DeviceNode::publish`) writes the sample into the node's ring,
increments the generation counter and marks the node as
advertised/published; it fails when the node does not exist. -/
def devPublish (b : Broker) (name : String) (inst : Nat) : Option Broker :=
  match b.findNode name inst with
  | some n => some (b.setNode (name, inst) { n with generation := n.generation + 1, published := true })
  | none => none

/-- Modelled from the spec: `DeviceNode::unadvertise` — the publisher goes
away and the node is marked non-advertised; the ring is retained. -/
def devUnadvertise (b : Broker) (name : String) (inst : Nat) : Int × Broker :=
  match b.findNode name inst with
  | some n => (0, b.setNode (name, inst) { n with published := false })
  | none => (-1, b)

/-- Modelled from the spec: the `ORBIOCSETQUEUESIZE` ioctl — on first
advertise (before any publication) it installs the requested size clamped
to at least 1; afterwards the queue size is fixed, so only a request equal
to the installed size succeeds and a different (in particular larger)
request fails. -/
def setQueueSize (n : NodeState) (q : Nat) : Option NodeState :=
  if n.generation = 0 then some { n with queue_size := max 1 q }
  else if q = n.queue_size then some n
  else none

/-- Scan instances `0..MAX_INSTANCES-1` (4 instances) for the first free
slot for `name`. -/
def scanFree (b : Broker) (name : String) : Option Nat :=
  (List.range 4).find? (fun i => (b.findNode name i).isNone)

/-- Modelled from the spec: the DeviceMaster `ORBIOCADVERTISE` handler.
With a null instance pointer it creates the node for instance 0, failing
with `EEXIST` when it is already present; with an instance pointer it
scans from 0 for the first free instance index, creates the node there and
writes the chosen index back through the pointer. -/
def device_advertise (b : Broker) (name : String) (inst : Option Nat) :
    Except Nat (Broker × Option Nat) :=
  match inst with
  | none =>
    if (b.findNode name 0).isSome then .error Errno.EEXIST
    else .ok ({ b with nodes := ((name, 0), freshNode) :: b.nodes }, none)
  | some _ =>
    match scanFree b name with
    | some i => .ok ({ b with nodes := ((name, i), freshNode) :: b.nodes }, some i)
    | none => .error Errno.ENOMEM

/-- Opening the node path (`open` on `/obj/<name><n>`): succeeds exactly
when the node is registered, and the resulting file descriptor refers to
that node. -/
def openNode (b : Broker) (name : String) (inst : Nat) : Option (String × Nat) :=
  if (b.findNode name inst).isSome then some (name, inst) else none

/-!
## The manager (`uORBManager.cxx`)
-/

/-- `uORB::Manager::node_advertise`: issue `ORBIOCADVERTISE` on the master
device; a failure with `errno == EEXIST` is turned into `OK` ("it's OK if
it already exists"). -/
def node_advertise (b : Broker) (meta : orb_metadata) (inst : Option Nat) :
    Int × Broker × Option Nat :=
  match device_advertise b meta.o_name inst with
  | .ok (b1, inst1) => (0, b1, inst1)
  | .error e => if e = Errno.EEXIST then (0, b, inst) else (-1, b, inst)

/-- Result of `node_open`: a file descriptor bound to a node (plus the
broker and the in/out instance argument after the call), or a failure with
the `errno` value set by the function. -/
inductive NodeOpenResult where
  | ok (fd : String × Nat) (b : Broker) (inst : Option Nat)
  | err (errno : Nat)
deriving DecidableEq

/-- `uORB::Manager::node_open` (lines 356–439).  `meta = none` models a
null descriptor pointer (`errno = ENOENT`); `hasData = false` models a
null initial-payload pointer for an advertiser (`errno = EINVAL`).  The
in/out `inst` argument models the C `int *instance` pointer (`none` =
null).  When the first open fails the node is created via
`node_advertise` and the open is retried; a remaining failure is reported
as `EIO`. -/
def node_open (b : Broker) (meta : Option orb_metadata) (hasData : Bool) (advertiser : Bool)
    (inst : Option Nat) : NodeOpenResult :=
  match meta with
  | none => .err Errno.ENOENT
  | some m =>
    if advertiser && !hasData then .err Errno.EINVAL
    else
      let firstTry : Bool := inst.isNone || !advertiser
      let inst1 : Option Nat := if firstTry then inst else some 0
      let fd0 : Option (String × Nat) :=
        if firstTry then openNode b m.o_name (inst.getD 0) else none
      match fd0 with
      | some fd => .ok fd b inst1
      | none =>
        match node_advertise b m inst1 with
        | (ret, b1, inst2) =>
          if ret = 0 then
            match openNode b1 m.o_name (inst2.getD 0) with
            | some fd => .ok fd b1 inst2
            | none => .err Errno.EIO
          else .err Errno.EIO

/-- The topic name referenced through the `meta` pointer (the rules gate
dereferences `meta->o_name`; the claims never reach this with a null
descriptor and an active rule). -/
def metaName : Option orb_metadata → String
  | some m => m.o_name
  | none => ""

/-- The body of `orb_advertise_multi` after the publisher-rules gate:
open the node as an advertiser, issue `ORBIOCSETQUEUESIZE` (a failure is
only logged), obtain the advertiser handle via `ORBIOCGADVERTISER` and
perform the initial publish. -/
def orb_advertise_core (b : Broker) (meta : Option orb_metadata) (hasData : Bool)
    (inst : Option Nat) (queue_size : Nat) : Option orb_advert × Broker × Option Nat :=
  match node_open b meta hasData true inst with
  | .err _ => (none, b, inst)
  | .ok fd b1 inst1 =>
    match b1.findNode fd.1 fd.2 with
    | none => (none, b1, inst1)
    | some node =>
      let b2 := match setQueueSize node queue_size with
        | some n2 => b1.setNode fd n2
        | none => b1
      match devPublish b2 fd.1 fd.2 with
      | some b3 => (some (.node fd.1 fd.2), b3, inst1)
      | none => (none, b2, inst1)

/-- `uORB::Manager::orb_advertise_multi` (lines 163–233), with
`ORB_USE_PUBLISHER_RULES` compiled in: `rule = some r` models
`_has_publisher_rules` with loaded rule `r`, `prog_name` is
`px4_get_taskname()`.  A denial returns the sentinel handle
`(orb_advert_t)_Instance` before anything else happens. -/
def orb_advertise_multi (b : Broker) (rule : Option LoadedRule) (prog_name : String)
    (meta : Option orb_metadata) (hasData : Bool) (inst : Option Nat) (queue_size : Nat) :
    Option orb_advert × Broker × Option Nat :=
  match rule with
  | some r =>
    if publisherRuleDenies r prog_name (metaName meta) then (some .sentinel, b, inst)
    else orb_advertise_core b meta hasData inst queue_size
  | none => orb_advertise_core b meta hasData inst queue_size

/-- `uORB::Manager::orb_publish` (lines 264–275): a publish through the
sentinel handle pretends success and touches nothing; otherwise delegate
to `DeviceNode::publish`. -/
def orb_publish (b : Broker) (handle : orb_advert) : Int × Broker :=
  match handle with
  | .sentinel => (0, b)
  | .node name inst =>
    match devPublish b name inst with
    | some b1 => (0, b1)
    | none => (-1, b)

/-- `uORB::Manager::orb_unadvertise` (lines 235–246): unadvertising the
sentinel handle pretends success; otherwise delegate to
`DeviceNode::unadvertise`. -/
def orb_unadvertise (b : Broker) (handle : orb_advert) : Int × Broker :=
  match handle with
  | .sentinel => (0, b)
  | .node name inst => devUnadvertise b name inst

/-- `uORB::Manager::orb_exists` (lines 114–161), with `ORB_COMMUNICATOR`
compiled in: `stat` the node path; on a `stat` failure consult
`_remote_topics`; when the result so far is `OK`, open the node and query
`ORBIOCISPUBLISHED`, turning an unpublished node into a failure. -/
def orb_exists (b : Broker) (meta : orb_metadata) (inst : Nat) : Int :=
  let statRet : Int := if (b.findNode meta.o_name inst).isSome then 0 else -1
  let ret : Int :=
    if statRet = -1 ∧ b.remote_topics ≠ [] then
      (if meta.o_name ∈ b.remote_topics then 0 else -1)
    else statRet
  if ret = 0 then
    match b.findNode meta.o_name inst with
    | some n => if n.published then 0 else -1
    | none => 0
  else ret

/-!
## copy / check / interval
-/

/-- One answer of the underlying device `read`: either a failure with an
`errno`, or a successful read of `n` bytes. -/
inductive ReadResult where
  | rerr (errno : Nat)
  | rbytes (n : Nat)
deriving DecidableEq

/-- `uORB::Manager::orb_copy` (lines 277–293).  The device is modelled as
the stream `dev` of successive `read` answers; the function returns the
pair (return code, `errno` value when one is set by `orb_copy` or the
failing read) together with the number of `read` calls issued.  The code
issues exactly one read: a negative result returns `-1` with the read's
own `errno`; a result different from `meta->o_size` sets `errno = EIO`
and returns `-1`. -/
def orb_copy (dev : Nat → ReadResult) (o_size : Nat) : (Int × Option Nat) × Nat :=
  match dev 0 with
  | .rerr e => ((-1, some e), 1)
  | .rbytes n => if n = o_size then ((0, none), 1) else ((-1, some Errno.EIO), 1)

/-- `uORB::Manager::orb_check` (lines 295–300).  `*updated` is set to
`false` before the `ORBIOCUPDATED` ioctl; the ioctl is modelled from the
spec as `some b` (success, writes the updated flag `b`) or `none`
(failure, writes nothing).  The result is (return code, final value of
the caller's flag). -/
def orb_check (ioctlResult : Option Bool) : Int × Bool :=
  let updated : Bool := false
  match ioctlResult with
  | some b => (0, b)
  | none => (-1, updated)

/-- `2^32`, the modulus of C `unsigned` arithmetic on the target. -/
def U32 : Nat := 4294967296

/-- `uORB::Manager::orb_set_interval` (lines 312–315): issue
`ORBIOCSETINTERVAL` with argument `interval * 1000`, computed in 32-bit
unsigned arithmetic.  Modelled from the spec: the node stores the ioctl
argument as its internal interval in microseconds; the returned value is
that stored interval. -/
def orb_set_interval (interval : Nat) : Nat :=
  (interval * 1000) % U32

/-- `uORB::Manager::orb_get_interval` (lines 317–322): read the stored
microsecond interval via `ORBIOCGETINTERVAL` and divide it by 1000. -/
def orb_get_interval (stored : Nat) : Nat :=
  stored / 1000

/-!
## The publisher-rules file parser (`ORB_USE_PUBLISHER_RULES`)

C strings are embedded as `List Char`; a file is the list of lines as
`fgets` delivers them (each line includes its trailing newline).
-/

/-- A C string. -/
abbrev CStr := List Char

/-- The two characters skipped by `strTrim`. -/
def isSpaceTab (c : Char) : Bool := c == ' ' || c == '\t'

/-- `uORB::Manager::strTrim` (lines 578–581): advance the pointer past
leading spaces and tabs. -/
def strTrim (s : CStr) : CStr := s.dropWhile isSpaceTab

/-- `uORB::Manager::startsWith` (lines 556–561): `pre` is a prefix of
`str` (the C compares the first `strlen(pre)` characters after a length
check). -/
def cStartsWith (pre s : CStr) : Bool := pre.isPrefixOf s

/-- The string `"restrict_topics:"`. -/
def restrictTopicsKey : CStr :=
  ['r', 'e', 's', 't', 'r', 'i', 'c', 't', '_', 't', 'o', 'p', 'i', 'c', 's', ':']

/-- The string `"module:"`. -/
def moduleKey : CStr := ['m', 'o', 'd', 'u', 'l', 'e', ':']

/-- The string `"ignore_others:"`. -/
def ignoreOthersKey : CStr := ['i', 'g', 'n', 'o', 'r', 'e', '_', 'o', 't', 'h', 'e', 'r', 's', ':']

/-- The string `"true"`. -/
def trueKey : CStr := ['t', 'r', 'u', 'e']

/-- The separators of the topics list. -/
def isDelim (c : Char) : Bool := c == ',' || c == '\n'

/-- The C string terminator written into the buffer by the tokenizer. -/
def NUL : Char := Char.ofNat 0

/-- First pass of the `restrict_topics:` tokenizer (lines 620–634): walk
the buffer with a running token length; every `,` or `\n` that terminates
a non-empty run is overwritten with `NUL` and counted.  Returns the
transformed buffer and `num_topics`. -/
def markTopics : CStr → Nat → CStr × Nat
  | [], _ => ([], 0)
  | c :: rest, len =>
    if isDelim c then
      if len > 0 then
        let r := markTopics rest 0
        (NUL :: r.1, r.2 + 1)
      else
        let r := markTopics rest 0
        (c :: r.1, r.2)
    else
      let r := markTopics rest (len + 1)
      (c :: r.1, r.2)

/-- Split a buffer at the `NUL` markers (the segments the second pass of
the tokenizer walks through). -/
def splitNul : CStr → List CStr
  | [] => [[]]
  | c :: rest =>
    let r := splitNul rest
    if c == NUL then [] :: r
    else
      match r with
      | [] => [[c]]
      | s :: ss => (c :: s) :: ss

/-- The `restrict_topics:` branch (lines 616–654): trim the value, run the
tokenizer, and when at least one topic was found collect `num_topics`
pointers, each trimmed of leading whitespace; with no topic the previous
`rule.topics` is kept (`none` result). -/
def parseTopics (after : CStr) : Option (List CStr) :=
  let buf := strTrim after
  let m := markTopics buf 0
  if m.2 > 0 then some (((splitNul m.1).take m.2).map strTrim) else none

/-- The `module:` branch (lines 656–666): trim the value, then cut a
trailing newline, and store the result as the module name. -/
def parseModule (after : CStr) : CStr :=
  let start := strTrim after
  if start.getLast? = some '\n' then start.dropLast else start

/-- The parser's rule under construction (`struct PublisherRule`):
`module_name` and `topics` start as null pointers. -/
structure PublisherRule where
  module_name : Option CStr
  topics : Option (List CStr)
  ignore_other_topics : Bool
deriving DecidableEq

/-- One iteration of the read loop of `readPublisherRulesFromFile`
(lines 609–680): skip short and comment lines, dispatch on the three
keys, and fail with `-EINVAL` on anything else. -/
def processLine (r : PublisherRule) (line : CStr) : Except Unit PublisherRule :=
  if line.length < 2 ∨ line.head? = some '#' then .ok r
  else if cStartsWith restrictTopicsKey line then
    match parseTopics (line.drop restrictTopicsKey.length) with
    | some ts => .ok { r with topics := some ts }
    | none => .ok r
  else if cStartsWith moduleKey line then
    .ok { r with module_name := some (parseModule (line.drop moduleKey.length)) }
  else if cStartsWith ignoreOthersKey line then
    if cStartsWith trueKey (strTrim (line.drop ignoreOthersKey.length)) then
      .ok { r with ignore_other_topics := true }
    else .ok r
  else .error ()

/-- `uORB::Manager::readPublisherRulesFromFile` (lines 583–690) on the
list of lines of the file: fold the read loop (which stops at the first
bad line) and finally reject a rule whose `module_name` or `topics` was
never set. -/
def readPublisherRulesFromFile (lines : List CStr) : Except Unit PublisherRule :=
  let first : Except Unit PublisherRule := .ok ⟨none, none, false⟩
  let folded := lines.foldl
    (fun acc l => match acc with
      | .error e => .error e
      | .ok r => processLine r l) first
  match folded with
  | .error e => .error e
  | .ok r => if r.module_name = none ∨ r.topics = none then .error () else .ok r

/-!
## Helper lemmas
-/

theorem lookupNode_setNodeList (l : List ((String × Nat) × NodeState)) (k : String × Nat)
    (n' : NodeState) :
    lookupNode (setNodeList l k n') k = if (lookupNode l k).isSome then some n' else none := by
  induction l with
  | nil => simp [lookupNode, setNodeList]
  | cons p rest ih =>
    by_cases h : p.1 = k
    · simp [lookupNode, setNodeList, h]
    · simp [lookupNode, setNodeList, h, ih]

theorem findNode_setNode (b : Broker) (k : String × Nat) (n n' : NodeState)
    (h : b.findNode k.1 k.2 = some n) :
    (b.setNode k n').findNode k.1 k.2 = some n' := by
  unfold Broker.findNode at h
  unfold Broker.findNode Broker.setNode
  rw [Prod.mk.eta] at h ⊢
  rw [lookupNode_setNodeList, h]
  rfl

/-- Opening as an advertiser with a null instance pointer, on a broker
whose instance-0 node for the topic already exists, returns that node's
descriptor immediately and changes nothing. -/
theorem node_open_existing (b : Broker) (m : orb_metadata) (n : NodeState)
    (h : b.findNode m.o_name 0 = some n) :
    node_open b (some m) true true none = .ok (m.o_name, 0) b none := by
  simp [node_open, openNode, h]

/-!
## Claims
-/

/-- Claim C1: an advertise denied by the publisher rules returns the
sentinel publisher handle (not an error); every publish through the
sentinel returns success and leaves the broker untouched, and
unadvertise of the sentinel also returns success. -/
theorem C1_sentinel_publisher (b : Broker) (r : LoadedRule) (prog : String)
    (m : orb_metadata) (hasData : Bool) (inst : Option Nat) (q : Nat)
    (hdeny : publisherRuleDenies r prog m.o_name = true) :
    orb_advertise_multi b (some r) prog (some m) hasData inst q = (some .sentinel, b, inst) ∧
    (∀ b' : Broker, orb_publish b' .sentinel = (0, b')) ∧
    (∀ b' : Broker, orb_unadvertise b' .sentinel = (0, b')) := by
  refine ⟨?_, fun b' => rfl, fun b' => rfl⟩
  simp [orb_advertise_multi, metaName, hdeny]

theorem C1_witness :
    orb_advertise_multi ⟨[], []⟩ (some ⟨"estimator", ["att"], true⟩) "mavlink"
      (some ⟨"att", 16⟩) true none 1 = (some .sentinel, ⟨[], []⟩, none) :=
  (C1_sentinel_publisher ⟨[], []⟩ ⟨"estimator", ["att"], true⟩ "mavlink" ⟨"att", 16⟩
    true none 1 (by decide)).1

/-- Claim C2: with the caller's name equal to the rule's module name and
`ignore_other_topics` set, the advertise is allowed exactly when the topic
is in the rule's topics list; with a different caller name it is denied
exactly when the topic is in the list; otherwise it is allowed. -/
theorem C2_publisher_rule_cases (r : LoadedRule) (prog topic : String) :
    (prog = r.module_name → r.ignore_other_topics = true →
      ((publisherRuleDenies r prog topic = false) ↔ topic ∈ r.topics)) ∧
    (prog ≠ r.module_name →
      ((publisherRuleDenies r prog topic = true) ↔ topic ∈ r.topics)) ∧
    (prog = r.module_name → r.ignore_other_topics = false →
      publisherRuleDenies r prog topic = false) := by
  have hmem : findTopic r topic = true ↔ topic ∈ r.topics := by
    simp [findTopic, List.any_eq_true]
  refine ⟨?_, ?_, ?_⟩
  · intro he hi
    simp [publisherRuleDenies, he, hi, hmem]
  · intro hne
    have hne' : ¬(r.module_name = prog) := fun e => hne e.symm
    simp [publisherRuleDenies, hne', hmem]
  · intro he hi
    simp [publisherRuleDenies, he, hi]

theorem C2_witness :
    publisherRuleDenies ⟨"estimator", ["att"], true⟩ "estimator" "att" = false :=
  ((C2_publisher_rule_cases ⟨"estimator", ["att"], true⟩ "estimator" "att").1
    rfl rfl).mpr (by decide)

/-- Claim C10: `orb_check` writes `false` into the caller's flag before
the `ORBIOCUPDATED` ioctl, so a failed check always leaves the flag
`false`. -/
theorem C10_check_failure_false (res : Option Bool) (h : (orb_check res).1 ≠ 0) :
    (orb_check res).2 = false := by
  cases res with
  | none => rfl
  | some b => exact absurd rfl h

theorem C10_witness : (orb_check none).2 = false :=
  C10_check_failure_false none (by decide)

/-- Claim C4, counterexample: the interval round trip is computed in
32-bit unsigned arithmetic, so `get_interval` after `set_interval v` is
not the identity for every `v`: at `v = 4294968` the multiplication
wraps and the round trip returns 0. -/
theorem C4_counterexample :
    orb_get_interval (orb_set_interval 4294968) ≠ 4294968 ∧
    orb_get_interval (orb_set_interval 4294968) = 0 := by
  constructor <;> decide

/-- Claim C4, amended: `set_interval` stores `v * 1000` microseconds and
`get_interval` divides the stored value by 1000, so the round trip is the
identity whenever `v * 1000` does not overflow 32-bit unsigned
arithmetic. -/
theorem C4_interval_roundtrip (v : Nat) (h : v * 1000 < U32) :
    orb_get_interval (orb_set_interval v) = v := by
  unfold orb_get_interval orb_set_interval
  rw [Nat.mod_eq_of_lt h]
  omega

theorem C4_witness : orb_get_interval (orb_set_interval 5) = 5 :=
  C4_interval_roundtrip 5 (by decide)

/-- A broker holding a node created only by a subscriber (never
published) for topic `att`, while a remote advertisement for `att` has
been observed. -/
def c3Broker : Broker :=
  { nodes := [(("att", 0), { published := false, queue_size := 1, generation := 0 })],
    remote_topics := ["att"] }

/-- Claim C3, counterexample: a remote advertisement for `att` has been
observed, yet `orb_exists` reports failure, because the remote-topic set
is only consulted when the local `stat` fails — here a subscriber-created
node exists locally and is unpublished, so the call returns `-1`. -/
theorem C3_counterexample :
    orb_exists c3Broker ⟨"att", 16⟩ 0 = -1 ∧
    c3Broker.findNode "att" 0 =
      some { published := false, queue_size := 1, generation := 0 } ∧
    "att" ∈ c3Broker.remote_topics := by
  refine ⟨by decide, by decide, by decide⟩

/-- Claim C3, amended: `exists(d, i)` succeeds iff the local `(d, i)` node
exists and has been published, or no local node exists and a remote
advertisement for the topic's name has been observed.  In particular a
node created only by a subscriber makes `exists` fail — even when a
remote advertisement is known. -/
theorem C3_exists_iff (b : Broker) (m : orb_metadata) (inst : Nat) :
    orb_exists b m inst = 0 ↔
      ((∃ n, b.findNode m.o_name inst = some n ∧ n.published = true) ∨
       (b.findNode m.o_name inst = none ∧ m.o_name ∈ b.remote_topics)) := by
  unfold orb_exists
  cases h : b.findNode m.o_name inst with
  | some n =>
    cases hp : n.published <;> simp [h, hp]
  | none =>
    by_cases hm : m.o_name ∈ b.remote_topics
    · have hne : b.remote_topics ≠ [] := by
        intro he
        rw [he] at hm
        cases hm
      simp [h, hm, hne]
    · by_cases he : b.remote_topics = [] <;> simp [h, hm, he]

/-- The descriptor of the `imu` topic. -/
def imuMeta : orb_metadata := { o_name := "imu", o_size := 16 }

/-- A broker on which the `imu` instance-0 node has already been
advertised and published. -/
def c5Broker : Broker :=
  { nodes := [(("imu", 0), { published := true, queue_size := 1, generation := 1 })],
    remote_topics := [] }

/-- Claim C5, counterexample: advertising `imu` with a null instance
argument while the instance-0 node exists opens that very node and
changes nothing — it does not allocate the lowest free instance index,
which here would be 1. -/
theorem C5_counterexample :
    node_open c5Broker (some imuMeta) true true none = .ok ("imu", 0) c5Broker none ∧
    scanFree c5Broker "imu" = some 1 := by
  refine ⟨by decide, by decide⟩

/-- Claim C5, amended: an advertise with a null instance argument on a
topic whose instance-0 node already exists falls through to opening that
existing node (the broker is unchanged and the instance argument stays
null); no new instance is allocated. -/
theorem C5_open_existing (b : Broker) (m : orb_metadata) (n : NodeState)
    (h : b.findNode m.o_name 0 = some n) :
    node_open b (some m) true true none = .ok (m.o_name, 0) b none :=
  node_open_existing b m n h

theorem C5_witness :
    node_open c5Broker (some imuMeta) true true none = .ok ("imu", 0) c5Broker none :=
  C5_open_existing c5Broker imuMeta { published := true, queue_size := 1, generation := 1 }
    (by decide)

/-- Claim C6, counterexample: a null descriptor makes both an advertise
and a subscribe fail with `ENOENT` (the spec's `NO_SUCH_TOPIC`), not with
`EINVAL` (`INVALID_ARG`). -/
theorem C6_counterexample :
    node_open ⟨[], []⟩ none true true none = .err Errno.ENOENT ∧
    node_open ⟨[], []⟩ none false false none = .err Errno.ENOENT ∧
    Errno.ENOENT ≠ Errno.EINVAL := by
  refine ⟨rfl, rfl, by decide⟩

/-- Claim C6, amended: a null descriptor makes advertise and subscribe
fail with `ENOENT` (no-such-topic) and no handle; an advertise whose
initial payload is null fails with `EINVAL` (`INVALID_ARG`) and no
handle. -/
theorem C6_null_error_codes (b : Broker) (hasData advertiser : Bool) (inst : Option Nat)
    (m : orb_metadata) :
    node_open b none hasData advertiser inst = .err Errno.ENOENT ∧
    node_open b (some m) false true inst = .err Errno.EINVAL := by
  constructor
  · rfl
  · simp [node_open]

/-- The descriptor of the `gps` topic. -/
def gpsMeta : orb_metadata := { o_name := "gps", o_size := 8 }

/-- The `gps` instance-0 node after its first advertise (queue size 2)
and two publications. -/
def gpsNode : NodeState := { published := true, queue_size := 2, generation := 2 }

/-- A broker on which `gps` has already been advertised with queue size 2
and published twice. -/
def c7Broker : Broker := { nodes := [(("gps", 0), gpsNode)], remote_topics := [] }

/-- Claim C7, counterexample: re-advertising `gps` with the larger queue
size 4 does NOT return an error code to the caller — the advertise
returns a valid publisher handle, while the node keeps queue size 2 (the
failed `ORBIOCSETQUEUESIZE` is only logged). -/
theorem C7_counterexample :
    (orb_advertise_multi c7Broker none "app" (some gpsMeta) true none 4).1 =
      some (.node "gps" 0) ∧
    (orb_advertise_multi c7Broker none "app" (some gpsMeta) true none 4).2.1.findNode
      "gps" 0 = some { published := true, queue_size := 2, generation := 3 } := by
  refine ⟨by decide, by decide⟩

/-- Claim C7, amended: a re-advertise of an already-published node that
requests a different (larger) queue size still succeeds — the queue-size
failure is only logged — and the node keeps its original queue size,
remains present and usable (the initial publish of the re-advertise goes
through and bumps the generation). -/
theorem C7_requeue_ignored (b : Broker) (prog : String) (m : orb_metadata) (q : Nat)
    (n : NodeState) (hfind : b.findNode m.o_name 0 = some n)
    (hgen : n.generation ≠ 0) (hq : q ≠ n.queue_size) :
    (orb_advertise_multi b none prog (some m) true none q).1 = some (.node m.o_name 0) ∧
    (orb_advertise_multi b none prog (some m) true none q).2.1.findNode m.o_name 0 =
      some { n with generation := n.generation + 1, published := true } := by
  have hopen := node_open_existing b m n hfind
  have hset := findNode_setNode b (m.o_name, 0)
    n { n with generation := n.generation + 1, published := true } hfind
  simp [orb_advertise_multi, orb_advertise_core, hopen, hfind, setQueueSize, hgen, hq,
    devPublish, hset]

theorem C7_witness :
    (orb_advertise_multi c7Broker none "app" (some gpsMeta) true none 4).1 =
      some (.node "gps" 0) :=
  (C7_requeue_ignored c7Broker "app" gpsMeta 4 gpsNode (by decide) (by decide) (by decide)).1

/-- A device whose first read fails with `EINTR` and whose next read
would deliver the full 16 payload bytes. -/
def c8dev : Nat → ReadResult := fun i => if i = 0 then .rerr Errno.EINTR else .rbytes 16

/-- Claim C8, counterexample: on a transient read failure `orb_copy`
issues exactly one read and fails immediately with the read's own errno
(`EINTR`, not `EIO`), even though the device's very next read would have
returned the full payload — there is no retry. -/
theorem C8_counterexample :
    orb_copy c8dev 16 = ((-1, some Errno.EINTR), 1) ∧
    c8dev 1 = .rbytes 16 ∧
    Errno.EINTR ≠ Errno.EIO := by
  refine ⟨by decide, by decide, by decide⟩

/-- Claim C8, amended: `orb_copy` performs a single read and never
retries; a failing read reports the read's own errno, and a read shorter
(or longer) than the topic's payload size reports `EIO`. -/
theorem C8_single_read (dev : Nat → ReadResult) (o_size : Nat) :
    (orb_copy dev o_size).2 = 1 ∧
    (∀ e, dev 0 = .rerr e → orb_copy dev o_size = ((-1, some e), 1)) ∧
    (∀ n, dev 0 = .rbytes n → n ≠ o_size →
      orb_copy dev o_size = ((-1, some Errno.EIO), 1)) := by
  refine ⟨?_, ?_, ?_⟩
  · unfold orb_copy
    cases dev 0 with
    | rerr e => rfl
    | rbytes n =>
      by_cases h : n = o_size <;> simp [h]
  · intro e he
    simp [orb_copy, he]
  · intro n hn hne
    simp [orb_copy, hn, hne]

theorem C8_witness : orb_copy c8dev 16 = ((-1, some Errno.EINTR), 1) :=
  (C8_single_read c8dev 16).2.1 Errno.EINTR (by decide)

theorem cStartsWith_append_self (pre rest : CStr) : cStartsWith pre (pre ++ rest) = true := by
  have h : pre <+: pre ++ rest := ⟨rest, rfl⟩
  simp [cStartsWith, List.isPrefixOf_iff_prefix, h]

theorem strTrim_ws_append (ws v : CStr) (h : ∀ c ∈ ws, isSpaceTab c = true) :
    strTrim (ws ++ v) = strTrim v := by
  induction ws with
  | nil => rfl
  | cons c cs ih =>
    have hc : isSpaceTab c = true := h c (List.mem_cons_self c cs)
    have ih' := ih (fun d hd => h d (List.mem_cons_of_mem c hd))
    simp [strTrim, List.dropWhile_cons, hc] at ih' ⊢
    exact ih'

theorem processLine_module (r : PublisherRule) (rest : CStr) :
    processLine r (moduleKey ++ rest) = .ok { r with module_name := some (parseModule rest) } := by
  have hlen : ¬((moduleKey ++ rest).length < 2 ∨ (moduleKey ++ rest).head? = some '#') := by
    simp [moduleKey]
  have hr : cStartsWith restrictTopicsKey (moduleKey ++ rest) = false := by
    simp [cStartsWith, restrictTopicsKey, moduleKey, List.isPrefixOf]
  have hm : cStartsWith moduleKey (moduleKey ++ rest) = true := cStartsWith_append_self _ _
  unfold processLine
  rw [if_neg hlen, if_neg (by simp [hr]), if_pos hm, List.drop_left]

theorem processLine_restrict (r : PublisherRule) (rest : CStr) :
    processLine r (restrictTopicsKey ++ rest) =
      (match parseTopics rest with
       | some ts => .ok { r with topics := some ts }
       | none => .ok r) := by
  have hlen : ¬((restrictTopicsKey ++ rest).length < 2 ∨
      (restrictTopicsKey ++ rest).head? = some '#') := by
    simp [restrictTopicsKey]
  have ht : cStartsWith restrictTopicsKey (restrictTopicsKey ++ rest) = true :=
    cStartsWith_append_self _ _
  unfold processLine
  rw [if_neg hlen, if_pos ht, List.drop_left]

theorem processLine_ignore (r : PublisherRule) (rest : CStr) :
    processLine r (ignoreOthersKey ++ rest) =
      (if cStartsWith trueKey (strTrim rest) then .ok { r with ignore_other_topics := true }
       else .ok r) := by
  have hlen : ¬((ignoreOthersKey ++ rest).length < 2 ∨
      (ignoreOthersKey ++ rest).head? = some '#') := by
    simp [ignoreOthersKey]
  have hr : cStartsWith restrictTopicsKey (ignoreOthersKey ++ rest) = false := by
    simp [cStartsWith, restrictTopicsKey, ignoreOthersKey, List.isPrefixOf]
  have hm : cStartsWith moduleKey (ignoreOthersKey ++ rest) = false := by
    simp [cStartsWith, moduleKey, ignoreOthersKey, List.isPrefixOf]
  have hi : cStartsWith ignoreOthersKey (ignoreOthersKey ++ rest) = true :=
    cStartsWith_append_self _ _
  unfold processLine
  rw [if_neg hlen, if_neg (by simp [hr]), if_neg (by simp [hm]), if_pos hi, List.drop_left]

/-- Claim C9, counterexample: a `module:` value followed by a space
parses to a different rule than the bare value — the trailing space stays
in the module name (`"foo "` versus `"foo"`), because `strTrim` only
skips leading whitespace. -/
theorem C9_counterexample :
    readPublisherRulesFromFile ["module: foo \n".toList, "restrict_topics: att\n".toList] =
      .ok ⟨some "foo ".toList, some ["att".toList], false⟩ ∧
    readPublisherRulesFromFile ["module: foo\n".toList, "restrict_topics: att\n".toList] =
      .ok ⟨some "foo".toList, some ["att".toList], false⟩ ∧
    ("foo " : String).toList ≠ ("foo" : String).toList := by
  refine ⟨by decide, by decide, by decide⟩

/-- Claim C9, amended: only the leading whitespace of a value is trimmed
(a line whose value is preceded by extra spaces or tabs parses to the
same rule), while trailing whitespace is preserved — the `module:` value
only has its trailing newline cut. -/
theorem C9_leading_whitespace (r : PublisherRule) (ws v : CStr)
    (h : ∀ c ∈ ws, isSpaceTab c = true) :
    processLine r (moduleKey ++ (ws ++ v)) = processLine r (moduleKey ++ v) ∧
    processLine r (restrictTopicsKey ++ (ws ++ v)) = processLine r (restrictTopicsKey ++ v) ∧
    processLine r (ignoreOthersKey ++ (ws ++ v)) = processLine r (ignoreOthersKey ++ v) := by
  refine ⟨?_, ?_, ?_⟩
  · rw [processLine_module, processLine_module]
    unfold parseModule
    rw [strTrim_ws_append ws v h]
  · rw [processLine_restrict, processLine_restrict]
    unfold parseTopics
    rw [strTrim_ws_append ws v h]
  · rw [processLine_ignore, processLine_ignore]
    rw [strTrim_ws_append ws v h]

theorem C9_witness :
    processLine ⟨none, none, false⟩ (moduleKey ++ ([' '] ++ "x\n".toList)) =
      processLine ⟨none, none, false⟩ (moduleKey ++ "x\n".toList) :=
  (C9_leading_whitespace ⟨none, none, false⟩ [' '] "x\n".toList (by decide)).1
